import Mathlib

/-!
Shallow embedding of the LangMortgage mortgage-validation pipeline.

The embedding follows the deterministic logic of the Python sources:

* `src/state.py` — the `MortgageState` record threaded through the pipeline.
  Python dict sub-records that start out as `{}` are modelled as `Option`
  fields initialised to `none`; a `KeyError` on a missing sub-record is
  modelled by a node returning `none`.
* `src/mock_nodes.py` — the six mock pipeline stages.  Stages that can raise
  (`ZeroDivisionError`, `KeyError`) return `Option MortgageState`; `none`
  models an uncaught Python exception escaping the node.
* `src/nodes.py` — the LLM-decorated twin stages.  Per the spec the prompt
  text and the `llm.invoke` call are cosmetic (the reply is never read); only
  the deterministic rule computed alongside is embedded.
* `src/a2a_property_client.py` — the valuation client.  The remote
  interactions (SDK runs / HTTP posts) are modelled by a `ClientConfig`
  carrying the environment facts the control flow branches on: mock mode, URL
  availability, SDK availability, the ordered outcomes of the candidate
  attempts, and whether an exception escapes the per-candidate loops into the
  outer `except` (the only route to the mock fallback in LIVE mode).
* `src/mock_graph.py` / `src/main.py` — the sequential and conditional
  workflow wirings and the initial state built by `run_mortgage_validation`.

Numbers: Python ints/floats used in the decision rules are modelled as `Int`
(credit score) and `ℚ` (currency amounts, ratios, confidences); Python `/` is
modelled by `pyDiv`, which returns `none` exactly when the divisor is zero
(`ZeroDivisionError`).
-/

namespace LangMortgage

/-- Python float division: `none` models a `ZeroDivisionError`. -/
def pyDiv (a b : ℚ) : Option ℚ := if b = 0 then none else some (a / b)

/-- Python `str.lower()` restricted to the ASCII strings used here. -/
def pyLower (s : String) : String := s.map Char.toLower

/-- Result sub-record of the Data Validation stage
(`validation_result` in `mock_nodes.py` and `nodes.py`). -/
structure ValidationResult where
  status : String
  issues : List String
  warnings : List String
  deriving Repr, DecidableEq

/-- Result sub-record of the Credit Assessment stage. -/
structure CreditResult where
  credit_grade : String
  risk_level : String
  credit_score : Int
  employment_stability : String
  deriving Repr, DecidableEq

/-- Result sub-record of the Income Verification stage. -/
structure IncomeResult where
  monthly_income : ℚ
  estimated_monthly_payment : ℚ
  payment_to_income_ratio : ℚ
  income_adequacy : String
  employment_stability : String
  concerns : List String
  deriving Repr, DecidableEq

/-- The `valuation_range` mapping `{min_value, max_value}`. -/
structure ValuationRange where
  min_value : ℚ
  max_value : ℚ
  deriving Repr, DecidableEq

/-- The `property_valuation` payload inside a valuation response
(`estimated_value`, `confidence_level`, `confidence_score`,
`valuation_range`). -/
structure PropertyValuation where
  estimated_value : ℚ
  confidence_level : String
  confidence_score : ℚ
  valuation_range : ValuationRange
  deriving Repr, DecidableEq

/-- The `valuation_flags` mapping produced by the mock estimator. -/
structure ValuationFlags where
  high_confidence : Bool
  market_stable : Bool
  comparable_data_sufficient : Bool
  deriving Repr, DecidableEq

/-- Output of `_assess_ltv_risk` in `a2a_property_client.py`. -/
structure LtvRiskAssessment where
  risk_level : String
  risk_factors : List String
  requires_pmi : Bool
  recommended_action : String
  deriving Repr, DecidableEq

/-- Output of `extract_loan_to_value_info`.  The Python function returns one
of two dict shapes; keys absent in a given shape are `Option` fields. -/
structure LtvAnalysis where
  ltv_available : Bool
  error : Option String
  estimated_property_value : Option ℚ
  loan_amount : Option ℚ
  ltv_ratio : Option ℚ
  ltv_percentage : Option ℚ
  confidence_level : Option String
  confidence_score : Option ℚ
  valuation_range : Option ValuationRange
  ltv_risk_assessment : Option LtvRiskAssessment
  deriving Repr, DecidableEq

/-- The `property_valuation_result` sub-record stored into the state by
`mock_property_valuation_node` (different key sets on the SUCCESS and ERROR
branches; branch-specific keys are `Option` fields). -/
structure PropValResult where
  status : String
  appraised_value : ℚ
  confidence_level : String
  confidence_score : Option ℚ
  valuation_range : Option ValuationRange
  ltv_analysis : Option LtvAnalysis
  valuation_flags : Option ValuationFlags
  error_message : Option String
  deriving Repr, DecidableEq

/-- Result sub-record of the Risk Analysis stage. -/
structure RiskResult where
  loan_to_value_ratio : ℚ
  down_payment_percent : ℚ
  overall_risk : String
  risk_factors : List String
  requires_pmi : Bool
  deriving Repr, DecidableEq

/-- Response dict returned by
`MortgagePropertyValuationClient.request_property_valuation`.  A key that is
present only on some return paths is an `Option` field (`.get` with a default
becomes `Option.getD`). -/
structure ValuationResponse where
  status : String
  property_valuation : Option PropertyValuation
  valuation_flags : Option ValuationFlags
  error_message : Option String
  deriving Repr, DecidableEq

/-- The application record threaded through the pipeline (`src/state.py`).
The property descriptor fields are not in the `MortgageState` TypedDict but
are read via `state.get(...)` by the valuation node, so they are `Option`
fields; the stage sub-records start as empty dicts (`none`). -/
structure MortgageState where
  applicant_name : String
  credit_score : Int
  annual_income : ℚ
  employment_years : ℚ
  loan_amount : ℚ
  property_value : ℚ
  down_payment : ℚ
  debt_to_income_ratio : ℚ
  property_address : Option String
  property_type : Option String
  square_footage : Option ℚ
  bedrooms : Option ℚ
  bathrooms : Option ℚ
  year_built : Option ℚ
  lot_size : Option ℚ
  data_validation_result : Option ValidationResult
  credit_assessment_result : Option CreditResult
  income_verification_result : Option IncomeResult
  property_valuation_result : Option PropValResult
  risk_analysis_result : Option RiskResult
  final_decision : String
  decision_reason : String
  confidence_score : ℚ
  current_step : String
  errors : List String
  warnings : List String
  deriving Repr, DecidableEq

/-- Property descriptor handed to the valuation client
(`property_info` dict built by `mock_property_valuation_node`). -/
structure PropertyInfo where
  property_address : Option String
  property_type : Option String
  square_footage : Option ℚ
  bedrooms : Option ℚ
  bathrooms : Option ℚ
  year_built : Option ℚ
  lot_size : Option ℚ
  deriving Repr, DecidableEq

/-- Initial state built by `run_mortgage_validation` in `src/main.py`:
application fields copied in, stage sub-records empty, decision fields blank,
`current_step = "initializing"`, empty error and warning lists. -/
def initial_state (applicant_name : String) (credit_score : Int)
    (annual_income employment_years loan_amount property_value down_payment
      debt_to_income_ratio : ℚ) : MortgageState where
  applicant_name := applicant_name
  credit_score := credit_score
  annual_income := annual_income
  employment_years := employment_years
  loan_amount := loan_amount
  property_value := property_value
  down_payment := down_payment
  debt_to_income_ratio := debt_to_income_ratio
  property_address := none
  property_type := none
  square_footage := none
  bedrooms := none
  bathrooms := none
  year_built := none
  lot_size := none
  data_validation_result := none
  credit_assessment_result := none
  income_verification_result := none
  property_valuation_result := none
  risk_analysis_result := none
  final_decision := ""
  decision_reason := ""
  confidence_score := 0
  current_step := "initializing"
  errors := []
  warnings := []

/-- Recommendation from `_get_ltv_recommendation` in `a2a_property_client.py`. -/
def get_ltv_recommendation (risk_level : String) (ltv_ratio : ℚ) : String :=
  if risk_level = "HIGH" then
    if ltv_ratio > 95/100 then "REJECT" else "REQUIRE_ADDITIONAL_REVIEW"
  else if risk_level = "MEDIUM" then
    if ltv_ratio > 80/100 then "REQUIRE_PMI" else "APPROVE_WITH_CONDITIONS"
  else
    "APPROVE"

/-- LTV risk classification from `_assess_ltv_risk` in `a2a_property_client.py`:
an if/elif chain selects initial factors and level, then a LOW-confidence
post-step appends a factor and upgrades a LOW level to MEDIUM. -/
def assess_ltv_risk (ltv_ratio : ℚ) (confidence_level : String) : LtvRiskAssessment :=
  let step1 : List String × String :=
    if ltv_ratio > 95/100 then
      (["Very high LTV (>95%)"], "HIGH")
    else if ltv_ratio > 80/100 then
      (["High LTV (>80%)"], if confidence_level = "HIGH" then "MEDIUM" else "HIGH")
    else if ltv_ratio > 70/100 then
      if confidence_level = "LOW" then
        (["Medium LTV with low confidence valuation"], "MEDIUM")
      else ([], "LOW")
    else ([], "LOW")
  let step2 : List String × String :=
    if confidence_level = "LOW" then
      (step1.1 ++ ["Low confidence property valuation"],
       if step1.2 = "LOW" then "MEDIUM" else step1.2)
    else step1
  { risk_level := step2.2
    risk_factors := step2.1
    requires_pmi := ltv_ratio > 80/100
    recommended_action := get_ltv_recommendation step2.2 ltv_ratio }

/-- The deterministic MOCK estimator `_mock_property_valuation`: base value is
`square_footage * 200` when the key is present and truthy (Python `if
property_info.get('square_footage'):`), else the 400000 default; a
property-type factor is applied; confidence MEDIUM / 75; range 0.9x to 1.1x. -/
def mock_property_valuation (property_info : PropertyInfo) : ValuationResponse :=
  let base0 : ℚ :=
    match property_info.square_footage with
    | some sf => if sf ≠ 0 then sf * 200 else 400000
    | none => 400000
  let property_type := property_info.property_type.getD "single_family"
  let base_value :=
    if property_type = "condo" then base0 * (9/10)
    else if property_type = "townhouse" then base0 * (95/100)
    else if property_type = "multi_family" then base0 * (11/10)
    else base0
  { status := "SUCCESS"
    property_valuation := some
      { estimated_value := base_value
        confidence_level := "MEDIUM"
        confidence_score := 75
        valuation_range := { min_value := base_value * (9/10), max_value := base_value * (11/10) } }
    valuation_flags := some
      { high_confidence := false, market_stable := true, comparable_data_sufficient := true }
    error_message := none }

/-- Outcome of one candidate attempt in the LIVE path of
`request_property_valuation` (one assistant id tried through the SDK, or one
endpoint/payload combination tried over HTTP): either a usable valuation
payload was obtained, or the attempt failed (non-success status, bad HTTP
code, parse failure, or an exception caught by the per-candidate handler,
which `continue`s to the next candidate). -/
inductive AttemptOutcome where
  | success (pv : PropertyValuation)
  | failed
  deriving Repr, DecidableEq

/-- First usable payload in the ordered candidate list, if any. -/
def first_usable_attempt : List AttemptOutcome → Option PropertyValuation
  | [] => none
  | AttemptOutcome.success pv :: _ => some pv
  | AttemptOutcome.failed :: rest => first_usable_attempt rest

/-- Environment facts `request_property_valuation` branches on: `use_mock`
(the client's final mock-mode decision), whether a PropValue URL is
configured, whether the LangGraph SDK import succeeded, the ordered outcomes
of the candidate attempts, and whether an exception escapes the candidate
loops into the outer handler (the only LIVE-mode route to the mock
fallback, since per-candidate exceptions are caught and `continue`d). -/
structure ClientConfig where
  use_mock : Bool
  has_url : Bool
  sdk_available : Bool
  attempts : List AttemptOutcome
  outer_exception : Bool
  deriving Repr, DecidableEq

/-- Control flow of `MortgagePropertyValuationClient.request_property_valuation`:
mock mode or a missing URL short-circuit to the mock estimator; in LIVE mode
the candidate list is scanned for the first usable payload; exhaustion
returns an ERROR dict whose message names the transport that was tried; an
exception escaping the loops falls back to the mock estimator. -/
def request_property_valuation (cfg : ClientConfig) (property_info : PropertyInfo) :
    ValuationResponse :=
  if cfg.use_mock then mock_property_valuation property_info
  else if ¬ cfg.has_url then mock_property_valuation property_info
  else if cfg.outer_exception then mock_property_valuation property_info
  else
    match first_usable_attempt cfg.attempts with
    | some pv =>
      { status := "SUCCESS", property_valuation := some pv
        valuation_flags := none, error_message := none }
    | none =>
      { status := "ERROR", property_valuation := none, valuation_flags := none
        error_message := some (if cfg.sdk_available then "All assistant ID attempts failed"
          else "All HTTP endpoint attempts failed") }

/-- The empty `LtvAnalysis` used where a shape has no LTV keys. -/
def ltv_unavailable_plain : LtvAnalysis where
  ltv_available := false
  error := none
  estimated_property_value := none
  loan_amount := none
  ltv_ratio := none
  ltv_percentage := none
  confidence_level := none
  confidence_score := none
  valuation_range := none
  ltv_risk_assessment := none

/-- `extract_loan_to_value_info` in `a2a_property_client.py`: on a
non-SUCCESS response an unavailable record with an error string; otherwise
the LTV ratio `loan_amount / estimated_value` (a zero estimated value raises,
modelled as `none`, as does a missing `property_valuation` payload) together
with the confidence data and the `_assess_ltv_risk` classification. -/
def extract_loan_to_value_info (valuation_response : ValuationResponse)
    (loan_amount : ℚ) : Option LtvAnalysis :=
  if valuation_response.status ≠ "SUCCESS" then
    some { ltv_unavailable_plain with error := some "Property valuation failed" }
  else
    match valuation_response.property_valuation with
    | none => none
    | some vd =>
      (pyDiv loan_amount vd.estimated_value).map (fun ltv_ratio =>
        { ltv_available := true
          error := none
          estimated_property_value := some vd.estimated_value
          loan_amount := some loan_amount
          ltv_ratio := some ltv_ratio
          ltv_percentage := some (ltv_ratio * 100)
          confidence_level := some vd.confidence_level
          confidence_score := some vd.confidence_score
          valuation_range := some vd.valuation_range
          ltv_risk_assessment := some (assess_ltv_risk ltv_ratio vd.confidence_level) })

/-- Mock Node 1 (`mock_data_validation_node` in `mock_nodes.py`): four issue
checks each force status FAIL; a high DTI only warns.  Issues accumulate in
the order the Python checks run. -/
def mock_data_validation_node (s : MortgageState) : MortgageState :=
  let issues :=
    (if s.credit_score < 300 ∨ s.credit_score > 850 then ["Invalid credit score"] else []) ++
    (if s.annual_income ≤ 0 then ["Invalid annual income"] else []) ++
    (if s.loan_amount ≤ 0 then ["Invalid loan amount"] else []) ++
    (if s.down_payment > s.property_value then ["Down payment exceeds property value"] else [])
  let status :=
    if (s.credit_score < 300 ∨ s.credit_score > 850) ∨ s.annual_income ≤ 0 ∨
        s.loan_amount ≤ 0 ∨ s.down_payment > s.property_value then "FAIL" else "PASS"
  let vwarnings := if s.debt_to_income_ratio > 1/2 then ["High debt-to-income ratio"] else []
  { s with
    data_validation_result := some { status := status, issues := issues, warnings := vwarnings }
    current_step := "data_validation_completed" }

/-- Node 1 of the LLM-decorated pipeline (`data_validation_node` in
`nodes.py`): the status is computed once, from the credit score and annual
income alone, and the four issue checks append issues without touching the
status (unlike the mock twin, which forces FAIL on every issue). -/
def data_validation_node (s : MortgageState) : MortgageState :=
  let status := if s.credit_score ≥ 300 ∧ s.annual_income > 0 then "PASS" else "FAIL"
  let issues :=
    (if s.credit_score < 300 ∨ s.credit_score > 850 then ["Invalid credit score"] else []) ++
    (if s.annual_income ≤ 0 then ["Invalid annual income"] else []) ++
    (if s.loan_amount ≤ 0 then ["Invalid loan amount"] else []) ++
    (if s.down_payment > s.property_value then ["Down payment exceeds property value"] else [])
  let vwarnings := if s.debt_to_income_ratio > 1/2 then ["High debt-to-income ratio"] else []
  { s with
    data_validation_result := some { status := status, issues := issues, warnings := vwarnings }
    current_step := "data_validation_completed" }

/-- Mock Node 2 (`mock_credit_assessment_node`): inclusive lower-bound grade
thresholds evaluated highest-first, plus employment stability. -/
def mock_credit_assessment_node (s : MortgageState) : MortgageState :=
  let gr : String × String :=
    if s.credit_score ≥ 750 then ("A", "LOW")
    else if s.credit_score ≥ 700 then ("B", "LOW")
    else if s.credit_score ≥ 650 then ("C", "MEDIUM")
    else if s.credit_score ≥ 600 then ("D", "HIGH")
    else ("F", "HIGH")
  { s with
    credit_assessment_result := some
      { credit_grade := gr.1
        risk_level := gr.2
        credit_score := s.credit_score
        employment_stability :=
          if s.employment_years ≥ 2 then "STABLE"
          else if s.employment_years ≥ 1 then "MODERATE"
          else "UNSTABLE" }
    current_step := "credit_assessment_completed" }

/-- Mock Node 3 (`mock_income_verification_node`): divides the estimated
monthly payment by `annual_income / 12` with no guard; a zero annual income
raises `ZeroDivisionError` (`none`). -/
def mock_income_verification_node (s : MortgageState) : Option MortgageState :=
  let monthly_income := s.annual_income / 12
  let monthly_payment := s.loan_amount * (5/1000)
  (pyDiv monthly_payment monthly_income).map (fun income_ratio =>
    { s with
      income_verification_result := some
        { monthly_income := monthly_income
          estimated_monthly_payment := monthly_payment
          payment_to_income_ratio := income_ratio
          income_adequacy := if income_ratio ≤ 28/100 then "SUFFICIENT" else "INSUFFICIENT"
          employment_stability := if s.employment_years ≥ 2 then "STABLE" else "UNSTABLE"
          concerns :=
            (if income_ratio > 28/100 then ["Payment-to-income ratio exceeds 28%"] else []) ++
            (if s.employment_years < 2 then ["Employment history less than 2 years"] else []) }
      current_step := "income_verification_completed" })

/-- The `property_info` dict `mock_property_valuation_node` builds from the
state (`state.get` with the defaults the node supplies). -/
def property_info_of (s : MortgageState) : PropertyInfo where
  property_address := some (s.property_address.getD "Address not provided")
  property_type := some (s.property_type.getD "single_family")
  square_footage := s.square_footage
  bedrooms := s.bedrooms
  bathrooms := s.bathrooms
  year_built := s.year_built
  lot_size := s.lot_size

/-- Warning text appended on a more-than-10% stated-vs-appraised variance.
The Python f-string renders the two amounts with comma formatting; the
formatting is presentation-only, so the amounts are parameters here but are
not rendered into digits. -/
def variance_warning (_stated_value _appraised_value : ℚ) : String :=
  "Significant variance between stated and appraised values"

/-- Mock valuation node (`mock_property_valuation_node`): builds the
property info, calls the client, and on SUCCESS extracts the LTV analysis
(raising, `none`, on a zero estimated value or a payload missing the
`property_valuation` or `valuation_flags` keys), compares appraised against
stated value (raising on a zero stated value), appends a variance warning
when the relative difference exceeds 10%, and overwrites `property_value`
with the appraised value; on any other status it records an ERROR sub-record
and appends to the state's error list. -/
def mock_property_valuation_node (cfg : ClientConfig) (s : MortgageState) :
    Option MortgageState :=
  let valuation_response := request_property_valuation cfg (property_info_of s)
  if valuation_response.status = "SUCCESS" then
    match extract_loan_to_value_info valuation_response s.loan_amount,
        valuation_response.property_valuation, valuation_response.valuation_flags with
    | some ltv_analysis, some pv, some flags =>
      let valuation_result : PropValResult :=
        { status := "SUCCESS"
          appraised_value := pv.estimated_value
          confidence_level := pv.confidence_level
          confidence_score := some pv.confidence_score
          valuation_range := some pv.valuation_range
          ltv_analysis := some ltv_analysis
          valuation_flags := some flags
          error_message := none }
      let stated_value := s.property_value
      (pyDiv |valuation_result.appraised_value - stated_value| stated_value).map
        (fun value_variance =>
          let s1 :=
            if value_variance > 10/100 then
              { s with warnings := s.warnings ++
                  [variance_warning stated_value valuation_result.appraised_value] }
            else s
          { s1 with
            property_value := valuation_result.appraised_value
            property_valuation_result := some valuation_result
            current_step := "property_valuation_completed" })
    | _, _, _ => none
  else
    let em := valuation_response.error_message.getD "Property valuation failed"
    let valuation_result : PropValResult :=
      { status := "ERROR"
        appraised_value := s.property_value
        confidence_level := "LOW"
        confidence_score := none
        valuation_range := none
        ltv_analysis := some ltv_unavailable_plain
        valuation_flags := none
        error_message := some em }
    some { s with
      errors := s.errors ++ ["Property valuation failed: " ++ em]
      property_valuation_result := some valuation_result
      current_step := "property_valuation_completed" }

/-- Mock Node 4 (`mock_risk_analysis_node`): LTV and down-payment percent
against the (possibly appraisal-overwritten) property value — a zero
property value raises — then the three independent factor checks and the
0/1/many risk aggregation. -/
def mock_risk_analysis_node (s : MortgageState) : Option MortgageState :=
  match pyDiv s.loan_amount s.property_value, pyDiv s.down_payment s.property_value with
  | some loan_to_value, some down_payment_percent =>
    let risk_factors :=
      (if loan_to_value > 8/10 then ["High loan-to-value ratio (>80%)"] else []) ++
      (if s.debt_to_income_ratio > 43/100 then ["High debt-to-income ratio (>43%)"] else []) ++
      (if s.credit_score < 620 then ["Low credit score (<620)"] else [])
    let overall_risk :=
      if risk_factors.length = 0 then "LOW"
      else if risk_factors.length ≤ 1 then "MEDIUM"
      else "HIGH"
    some { s with
      risk_analysis_result := some
        { loan_to_value_ratio := loan_to_value
          down_payment_percent := down_payment_percent
          overall_risk := overall_risk
          risk_factors := risk_factors
          requires_pmi := loan_to_value > 8/10 }
      current_step := "risk_analysis_completed" }
  | _, _ => none

/-- Decision core of `mock_final_decision_node` as a function of the four
stage sub-records and the optional valuation sub-record: the if/elif chain
of the Python node, including the valuation-confidence adjustment applied
only when the valuation status is SUCCESS. -/
def mock_final_decision_core (dv : ValidationResult) (ca : CreditResult)
    (iv : IncomeResult) (ra : RiskResult) (pvr : Option PropValResult) :
    String × String × ℚ :=
  let data_valid := dv.status = "PASS"
  let credit_grade := ca.credit_grade
  let income_adequate := iv.income_adequacy = "SUFFICIENT"
  let risk_level := ra.overall_risk
  let pv_status : Option String := pvr.map (fun r => r.status)
  let property_val_success := pv_status = some "SUCCESS"
  if ¬ data_valid then
    ("REJECTED", "Failed data validation", 95)
  else if ¬ property_val_success ∧ pv_status = some "ERROR" then
    ("REJECTED", "Property valuation failed", 90)
  else if (credit_grade = "A" ∨ credit_grade = "B") ∧ income_adequate ∧
      (risk_level = "LOW" ∨ risk_level = "MEDIUM") then
    let confidence0 : ℚ := if risk_level = "LOW" then 85 else 75
    let confidence :=
      if property_val_success then
        match pvr with
        | some pr =>
          if pr.confidence_level = "HIGH" then confidence0 + 5
          else if pr.confidence_level = "LOW" then confidence0 - 10
          else confidence0
        | none => confidence0
      else confidence0
    ("APPROVED",
     "Strong application: " ++ credit_grade ++ " credit grade, adequate income, " ++
       pyLower risk_level ++ " risk",
     confidence)
  else if (credit_grade = "D" ∨ credit_grade = "F") ∨ ¬ income_adequate ∨
      risk_level = "HIGH" then
    ("REJECTED",
     "High risk factors: " ++ credit_grade ++ " credit grade, income adequacy: " ++
       (if income_adequate then "True" else "False") ++ ", " ++ pyLower risk_level ++ " risk",
     80)
  else
    ("PENDING_REVIEW",
     "Borderline case requiring manual review: " ++ credit_grade ++ " credit, " ++
       pyLower risk_level ++ " risk",
     60)

/-- Mock Node 5 (`mock_final_decision_node`): reads the four stage
sub-records unconditionally (lines 205-208) before any rule is applied, so a
missing sub-record raises `KeyError` (`none`); the valuation sub-record is
read through safe `.get` calls. -/
def mock_final_decision_node (s : MortgageState) : Option MortgageState :=
  match s.data_validation_result, s.credit_assessment_result,
      s.income_verification_result, s.risk_analysis_result with
  | some dv, some ca, some iv, some ra =>
    let out := mock_final_decision_core dv ca iv ra s.property_valuation_result
    some { s with
      final_decision := out.1
      decision_reason := out.2.1
      confidence_score := out.2.2
      current_step := "final_decision_completed" }
  | _, _, _, _ => none

/-- Sequential mock workflow (`create_mock_mortgage_workflow` in
`mock_graph.py`): data validation, credit assessment, income verification,
property valuation, risk analysis, decision — every stage always runs. -/
def run_mock_mortgage_workflow (cfg : ClientConfig) (s : MortgageState) :
    Option MortgageState :=
  (mock_income_verification_node (mock_credit_assessment_node (mock_data_validation_node s))).bind
    (fun s3 => (mock_property_valuation_node cfg s3).bind
      (fun s4 => (mock_risk_analysis_node s4).bind mock_final_decision_node))

/-- Router after data validation (`should_continue_after_validation`). -/
def should_continue_after_validation (s : MortgageState) : Option String :=
  s.data_validation_result.map
    (fun dv => if dv.status = "FAIL" then "decision" else "credit_assessment")

/-- Router after credit assessment (`should_continue_after_credit`). -/
def should_continue_after_credit (s : MortgageState) : Option String :=
  s.credit_assessment_result.map
    (fun ca => if ca.credit_grade = "F" then "decision" else "income_verification")

/-- Router after property valuation
(`should_continue_after_property_valuation`). -/
def should_continue_after_property_valuation (s : MortgageState) : Option String :=
  s.property_valuation_result.map
    (fun pr => if pr.status = "ERROR" then "decision" else "risk_analysis")

/-- Conditional mock workflow (`create_mock_conditional_mortgage_workflow`):
routes straight to the decision node on validation FAIL, on credit grade F,
or on a valuation ERROR, otherwise follows the sequential order. -/
def run_mock_conditional_mortgage_workflow (cfg : ClientConfig) (s : MortgageState) :
    Option MortgageState :=
  let s1 := mock_data_validation_node s
  (should_continue_after_validation s1).bind (fun route1 =>
    if route1 = "decision" then mock_final_decision_node s1
    else
      let s2 := mock_credit_assessment_node s1
      (should_continue_after_credit s2).bind (fun route2 =>
        if route2 = "decision" then mock_final_decision_node s2
        else
          (mock_income_verification_node s2).bind (fun s3 =>
            (mock_property_valuation_node cfg s3).bind (fun s4 =>
              (should_continue_after_property_valuation s4).bind (fun route3 =>
                if route3 = "decision" then mock_final_decision_node s4
                else (mock_risk_analysis_node s4).bind mock_final_decision_node)))))

/-! Shared helper lemmas and concrete inputs used by the verification. -/

/-- Appending to a nonempty string never yields the empty string. -/
theorem append_ne_empty_left (a b : String) (ha : a.length ≠ 0) : a ++ b ≠ "" := by
  intro h
  have hlen := congrArg String.length h
  rw [String.length_append, String.length_empty] at hlen
  omega

/-- Client environment with the client's final decision being mock mode. -/
def cfg_mock_mode : ClientConfig where
  use_mock := true
  has_url := false
  sdk_available := false
  attempts := []
  outer_exception := false

/-- LIVE client environment (mock off, URL configured, SDK importable) in
which all eight candidate assistant identifiers fail and no exception
escapes the candidate loop. -/
def cfg_live_exhausted_sdk : ClientConfig where
  use_mock := false
  has_url := true
  sdk_available := true
  attempts := [AttemptOutcome.failed, AttemptOutcome.failed, AttemptOutcome.failed,
    AttemptOutcome.failed, AttemptOutcome.failed, AttemptOutcome.failed,
    AttemptOutcome.failed, AttemptOutcome.failed]
  outer_exception := false

/-- Application whose down payment (500000) exceeds its property value
(400000), all other fields valid (the `main.py` sample with a larger down
payment). -/
def app_downpayment_exceeds : MortgageState :=
  initial_state "John Doe" 720 85000 (7/2) 320000 400000 500000 (35/100)

/-- Application with a zero annual income and all other fields valid. -/
def app_zero_income : MortgageState :=
  initial_state "John Doe" 720 0 (7/2) 320000 400000 80000 (35/100)

/-- The spec's strong-application scenario. -/
def app_strong : MortgageState :=
  initial_state "Jane Roe" 780 95000 5 300000 400000 100000 (25/100)

/-- Application with credit score 500 (grade F) and all other fields valid. -/
def app_bad_credit : MortgageState :=
  initial_state "Low Score" 500 85000 (7/2) 320000 400000 80000 (35/100)

/-- Credit grading as the spec words it (section 4.2): inclusive lower-bound
thresholds, evaluated highest-first. -/
def spec_credit_grade_risk (score : Int) : String × String :=
  if score ≥ 750 then ("A", "LOW")
  else if score ≥ 700 then ("B", "LOW")
  else if score ≥ 650 then ("C", "MEDIUM")
  else if score ≥ 600 then ("D", "HIGH")
  else ("F", "HIGH")

/-- Grade and risk the Credit Assessment stage assigns to a given score. -/
def grade_risk_at (score : Int) : Option (String × String) :=
  (mock_credit_assessment_node (initial_state "" score 0 0 0 0 0 0)).credit_assessment_result.map
    (fun c => (c.credit_grade, c.risk_level))

/-! Claim theorems. -/

/-- C7: the Credit Assessment stage assigns the grade by inclusive
lower-bound thresholds evaluated highest-first (score ≥ 750 → A with risk
LOW, ≥ 700 → B/LOW, ≥ 650 → C/MEDIUM, ≥ 600 → D/HIGH, otherwise F/HIGH), and
the boundary cases 750→A, 749→B, 700→B, 699→C, 650→C, 649→D, 600→D, 599→F
hold on the stage itself. -/
theorem C7_credit_grade_thresholds :
    (∀ s : MortgageState,
      (mock_credit_assessment_node s).credit_assessment_result.map
        (fun c => (c.credit_grade, c.risk_level)) = some (spec_credit_grade_risk s.credit_score)) ∧
    grade_risk_at 750 = some ("A", "LOW") ∧ grade_risk_at 749 = some ("B", "LOW") ∧
    grade_risk_at 700 = some ("B", "LOW") ∧ grade_risk_at 699 = some ("C", "MEDIUM") ∧
    grade_risk_at 650 = some ("C", "MEDIUM") ∧ grade_risk_at 649 = some ("D", "HIGH") ∧
    grade_risk_at 600 = some ("D", "HIGH") ∧ grade_risk_at 599 = some ("F", "HIGH") := by
  refine ⟨fun s => by simp [mock_credit_assessment_node, spec_credit_grade_risk], ?_, ?_, ?_, ?_, ?_, ?_, ?_, ?_⟩ <;>
    norm_num [grade_risk_at, mock_credit_assessment_node, initial_state]

/-- C1 (code-bug evidence): on an otherwise-valid application whose down
payment exceeds the property value, the `nodes.py` validation stage returns
status PASS while still appending the issue "Down payment exceeds property
value" — its status is computed only from the credit score and annual income
— whereas the mock twin `mock_data_validation_node` returns status FAIL with
the same issue, as the claim states. -/
theorem C1_downpayment_validation_divergence :
    app_downpayment_exceeds.down_payment > app_downpayment_exceeds.property_value ∧
    (data_validation_node app_downpayment_exceeds).data_validation_result =
      some { status := "PASS", issues := ["Down payment exceeds property value"], warnings := [] } ∧
    (mock_data_validation_node app_downpayment_exceeds).data_validation_result =
      some { status := "FAIL", issues := ["Down payment exceeds property value"], warnings := [] } := by
  refine ⟨?_, ?_, ?_⟩ <;>
    norm_num [data_validation_node, mock_data_validation_node, app_downpayment_exceeds,
      initial_state]

/-- C3 (counterexample): in LIVE mode with a configured URL, when every
candidate assistant identifier fails and no exception escapes the candidate
loop, `request_property_valuation` returns an ERROR response, not the mock
estimator's SUCCESS valuation — the claim is false at this input. -/
theorem C3_exhaustion_returns_error_not_mock :
    (request_property_valuation cfg_live_exhausted_sdk (property_info_of app_strong)).status = "ERROR" ∧
    (mock_property_valuation (property_info_of app_strong)).status = "SUCCESS" ∧
    request_property_valuation cfg_live_exhausted_sdk (property_info_of app_strong) ≠
      mock_property_valuation (property_info_of app_strong) := by
  refine ⟨rfl, rfl, ?_⟩
  intro h
  have := congrArg ValuationResponse.status h
  simp [request_property_valuation, cfg_live_exhausted_sdk, first_usable_attempt,
    mock_property_valuation] at this

/-- C3 (amended): when the LIVE path exhausts its finite ordered candidate
list without a usable response and without an exception escaping the
candidate loop, `request_property_valuation` returns an ERROR response whose
message names the transport tried; the mock fallback is reached only in mock
mode, with no URL configured, or when an exception escapes the loops. -/
theorem C3_exhaustion_amended (cfg : ClientConfig) (p : PropertyInfo)
    (hmock : cfg.use_mock = false) (hurl : cfg.has_url = true)
    (hexc : cfg.outer_exception = false)
    (hfail : first_usable_attempt cfg.attempts = none) :
    request_property_valuation cfg p =
      { status := "ERROR", property_valuation := none, valuation_flags := none
        error_message := some (if cfg.sdk_available then "All assistant ID attempts failed"
          else "All HTTP endpoint attempts failed") } := by
  simp [request_property_valuation, hmock, hurl, hexc, hfail]

/-- Witness for C3 (amended) at the concrete exhausted-SDK environment. -/
theorem C3_exhaustion_amended_witness :
    request_property_valuation cfg_live_exhausted_sdk (property_info_of app_strong) =
      { status := "ERROR", property_valuation := none, valuation_flags := none
        error_message := some (if cfg_live_exhausted_sdk.sdk_available then
          "All assistant ID attempts failed" else "All HTTP endpoint attempts failed") } :=
  C3_exhaustion_amended cfg_live_exhausted_sdk (property_info_of app_strong) rfl rfl rfl rfl

/-- C5 (counterexample): the Data Validation stage can signal FAIL while the
record's error list stays empty — at a down payment exceeding the property
value, the stage reports FAIL with its issues kept in its own sub-record,
and neither the record's error list nor its warning list gains an entry. -/
theorem C5_validation_fail_no_error_entry :
    (mock_data_validation_node app_downpayment_exceeds).data_validation_result.map
      (fun r => r.status) = some "FAIL" ∧
    (mock_data_validation_node app_downpayment_exceeds).errors = [] ∧
    (mock_data_validation_node app_downpayment_exceeds).warnings = [] := by
  refine ⟨?_, rfl, rfl⟩
  norm_num [mock_data_validation_node, app_downpayment_exceeds, initial_state]

/-- Shape of the valuation node's output when the client responds with a
well-formed SUCCESS payload and both the estimated and the stated property
values are nonzero: the LTV analysis is computed, a variance warning is
appended exactly when the relative difference exceeds 10%, and the record's
`property_value` is overwritten with the appraised value. -/
theorem mock_property_valuation_node_success (cfg : ClientConfig) (s : MortgageState)
    (pv : PropertyValuation) (flags : ValuationFlags) (em : Option String)
    (hresp : request_property_valuation cfg (property_info_of s) =
      { status := "SUCCESS", property_valuation := some pv, valuation_flags := some flags
        error_message := em })
    (hv : pv.estimated_value ≠ 0) (hs : s.property_value ≠ 0) :
    mock_property_valuation_node cfg s = some
      { s with
        warnings := s.warnings ++
          (if 10/100 < |pv.estimated_value - s.property_value| / s.property_value then
            [variance_warning s.property_value pv.estimated_value] else [])
        property_value := pv.estimated_value
        property_valuation_result := some
          { status := "SUCCESS"
            appraised_value := pv.estimated_value
            confidence_level := pv.confidence_level
            confidence_score := some pv.confidence_score
            valuation_range := some pv.valuation_range
            ltv_analysis := some
              { ltv_available := true
                error := none
                estimated_property_value := some pv.estimated_value
                loan_amount := some s.loan_amount
                ltv_ratio := some (s.loan_amount / pv.estimated_value)
                ltv_percentage := some (s.loan_amount / pv.estimated_value * 100)
                confidence_level := some pv.confidence_level
                confidence_score := some pv.confidence_score
                valuation_range := some pv.valuation_range
                ltv_risk_assessment := some
                  (assess_ltv_risk (s.loan_amount / pv.estimated_value) pv.confidence_level) }
            valuation_flags := some flags
            error_message := none }
        current_step := "property_valuation_completed" } := by
  unfold mock_property_valuation_node
  rw [hresp]
  simp only [extract_loan_to_value_info, pyDiv, if_neg hv, if_neg hs]
  by_cases hvar : 10/100 < |pv.estimated_value - s.property_value| / s.property_value <;>
    simp [hvar]

/-- Shape of the valuation node's output on a non-SUCCESS client response:
an ERROR sub-record is stored, the error list gains one entry, and the
stated property value and warning list are left unchanged. -/
theorem mock_property_valuation_node_error (cfg : ClientConfig) (s : MortgageState)
    (hs : (request_property_valuation cfg (property_info_of s)).status ≠ "SUCCESS") :
    mock_property_valuation_node cfg s = some
      { s with
        errors := s.errors ++ ["Property valuation failed: " ++
          ((request_property_valuation cfg (property_info_of s)).error_message.getD
            "Property valuation failed")]
        property_valuation_result := some
          { status := "ERROR"
            appraised_value := s.property_value
            confidence_level := "LOW"
            confidence_score := none
            valuation_range := none
            ltv_analysis := some ltv_unavailable_plain
            valuation_flags := none
            error_message := some
              ((request_property_valuation cfg (property_info_of s)).error_message.getD
                "Property valuation failed") }
        current_step := "property_valuation_completed" } := by
  unfold mock_property_valuation_node
  rw [if_neg hs]

/-- C5 (amended): stage failures do not in general feed the record's error
list.  The Data Validation stage leaves the record's error and warning lists
untouched even when it reports FAIL (its issues and warnings live in its own
sub-record); only the Property Valuation stage appends to the record's error
list, and it does so exactly when the client response is not SUCCESS, in
which case its sub-record's status is ERROR; on a SUCCESS response it leaves
the error list unchanged. -/
theorem C5_error_handling_amended (cfg : ClientConfig) (s s' : MortgageState)
    (h : mock_property_valuation_node cfg s = some s') :
    (mock_data_validation_node s).errors = s.errors ∧
    (mock_data_validation_node s).warnings = s.warnings ∧
    ((request_property_valuation cfg (property_info_of s)).status ≠ "SUCCESS" →
      s'.errors = s.errors ++ ["Property valuation failed: " ++
        ((request_property_valuation cfg (property_info_of s)).error_message.getD
          "Property valuation failed")] ∧
      s'.property_valuation_result.map (fun r => r.status) = some "ERROR") ∧
    ((request_property_valuation cfg (property_info_of s)).status = "SUCCESS" →
      s'.errors = s.errors) := by
  refine ⟨rfl, rfl, ?_, ?_⟩
  · intro hns
    rw [mock_property_valuation_node_error cfg s hns] at h
    have hs' := Option.some.inj h
    subst hs'
    exact ⟨rfl, rfl⟩
  · intro hsucc
    unfold mock_property_valuation_node at h
    rw [if_pos hsucc] at h
    rcases hx : extract_loan_to_value_info (request_property_valuation cfg (property_info_of s))
        s.loan_amount with _ | la
    · simp only [hx] at h
      exact Option.noConfusion h
    · rcases hp : (request_property_valuation cfg (property_info_of s)).property_valuation
          with _ | pv
      · simp only [hx, hp] at h
        exact Option.noConfusion h
      · rcases hf : (request_property_valuation cfg (property_info_of s)).valuation_flags
            with _ | fl
        · simp only [hx, hp, hf] at h
          exact Option.noConfusion h
        · simp only [hx, hp, hf] at h
          obtain ⟨v, hpd, hfv⟩ := Option.map_eq_some'.mp h
          subst hfv
          by_cases hvar : v > 10/100 <;> simp [hvar]

/-- Witness for C5 (amended): the valuation node run in the exhausted LIVE
environment, where the client response is an ERROR. -/
theorem C5_error_handling_amended_witness :
    (mock_data_validation_node app_strong).errors = app_strong.errors ∧
    (mock_data_validation_node app_strong).warnings = app_strong.warnings ∧
    ((request_property_valuation cfg_live_exhausted_sdk (property_info_of app_strong)).status ≠ "SUCCESS" →
      ((mock_property_valuation_node cfg_live_exhausted_sdk app_strong).getD app_strong).errors =
        app_strong.errors ++ ["Property valuation failed: " ++
          ((request_property_valuation cfg_live_exhausted_sdk
            (property_info_of app_strong)).error_message.getD "Property valuation failed")] ∧
      ((mock_property_valuation_node cfg_live_exhausted_sdk app_strong).getD
        app_strong).property_valuation_result.map (fun r => r.status) = some "ERROR") ∧
    ((request_property_valuation cfg_live_exhausted_sdk (property_info_of app_strong)).status = "SUCCESS" →
      ((mock_property_valuation_node cfg_live_exhausted_sdk app_strong).getD app_strong).errors =
        app_strong.errors) :=
  C5_error_handling_amended cfg_live_exhausted_sdk app_strong
    ((mock_property_valuation_node cfg_live_exhausted_sdk app_strong).getD app_strong)
    (by rw [mock_property_valuation_node_error cfg_live_exhausted_sdk app_strong (by decide)]; rfl)

/-- C9: whenever a valuation is obtained successfully (and both the stated
and the appraised values are nonzero, so no division raises), the valuation
node appends a warning exactly when the appraised value differs from the
stated value by more than 10% relative to the stated value, overwrites the
record's `property_value` with the appraised value while leaving the loan
amount and down payment unchanged, and the Risk Analysis stage — which in
the sequential workflow runs on this node's output — computes its
loan-to-value ratio and down-payment percent against the appraised value. -/
theorem C9_appraised_value_substitution (cfg : ClientConfig) (s : MortgageState)
    (pv : PropertyValuation) (flags : ValuationFlags) (em : Option String)
    (hresp : request_property_valuation cfg (property_info_of s) =
      { status := "SUCCESS", property_valuation := some pv, valuation_flags := some flags
        error_message := em })
    (hv : pv.estimated_value ≠ 0) (hs : s.property_value ≠ 0) :
    ∃ s', mock_property_valuation_node cfg s = some s' ∧
      s'.property_value = pv.estimated_value ∧
      (10/100 < |pv.estimated_value - s.property_value| / s.property_value →
        s'.warnings = s.warnings ++ [variance_warning s.property_value pv.estimated_value]) ∧
      (¬ 10/100 < |pv.estimated_value - s.property_value| / s.property_value →
        s'.warnings = s.warnings) ∧
      s'.loan_amount = s.loan_amount ∧
      s'.down_payment = s.down_payment ∧
      (∀ s'' : MortgageState, mock_risk_analysis_node s' = some s'' →
        ∃ rr, s''.risk_analysis_result = some rr ∧
          rr.loan_to_value_ratio = s.loan_amount / pv.estimated_value ∧
          rr.down_payment_percent = s.down_payment / pv.estimated_value) := by
  refine ⟨_, mock_property_valuation_node_success cfg s pv flags em hresp hv hs, rfl,
    ?_, ?_, rfl, rfl, ?_⟩
  · intro hvar
    simp [hvar]
  · intro hvar
    simp [hvar]
  · intro s'' h''
    unfold mock_risk_analysis_node at h''
    simp only [pyDiv, if_neg hv] at h''
    have hs'' := Option.some.inj h''
    subst hs''
    exact ⟨_, rfl, rfl, rfl⟩

/-- Witness for C9 at the mock-mode client and the strong application: the
mock estimator appraises at 400000, equal to the stated value, so no
variance warning is appended and risk analysis divides by 400000. -/
theorem C9_appraised_value_substitution_witness :
    ∃ s', mock_property_valuation_node cfg_mock_mode app_strong = some s' ∧
      s'.property_value = (400000 : ℚ) ∧
      (10/100 < |(400000 : ℚ) - app_strong.property_value| / app_strong.property_value →
        s'.warnings = app_strong.warnings ++ [variance_warning app_strong.property_value 400000]) ∧
      (¬ 10/100 < |(400000 : ℚ) - app_strong.property_value| / app_strong.property_value →
        s'.warnings = app_strong.warnings) ∧
      s'.loan_amount = app_strong.loan_amount ∧
      s'.down_payment = app_strong.down_payment ∧
      (∀ s'' : MortgageState, mock_risk_analysis_node s' = some s'' →
        ∃ rr, s''.risk_analysis_result = some rr ∧
          rr.loan_to_value_ratio = app_strong.loan_amount / 400000 ∧
          rr.down_payment_percent = app_strong.down_payment / 400000) :=
  C9_appraised_value_substitution cfg_mock_mode app_strong
    { estimated_value := 400000, confidence_level := "MEDIUM", confidence_score := 75
      valuation_range := { min_value := 360000, max_value := 440000 } }
    { high_confidence := false, market_stable := true, comparable_data_sufficient := true }
    none
    (by norm_num [request_property_valuation, cfg_mock_mode, mock_property_valuation,
      property_info_of, app_strong, initial_state] <;> decide)
    (by norm_num)
    (by norm_num [app_strong, initial_state])

/-- Property-type factor as the spec words it (section 4.4): condo 0.9,
townhouse 0.95, multi_family 1.1, single_family or other 1.0. -/
def spec_type_factor (property_type : String) : ℚ :=
  if property_type = "condo" then 9/10
  else if property_type = "townhouse" then 95/100
  else if property_type = "multi_family" then 11/10
  else 1

/-- The spec's mock-valuation scenario descriptor: 2200 square feet, condo. -/
def condo_2200 : PropertyInfo where
  property_address := none
  property_type := some "condo"
  square_footage := some 2200
  bedrooms := none
  bathrooms := none
  year_built := none
  lot_size := none

/-- C8: the MOCK estimator always succeeds with confidence MEDIUM, score 75
and range 0.9x to 1.1x of the estimated value; the estimated value is
`square_footage * 200` times the property-type factor when square footage is
provided and truthy (Python treats an explicit 0 as absent), else 400000
times the factor; and the spec's condo scenario evaluates to 396000 with
range 356400 to 435600. -/
theorem C8_mock_estimator :
    (∀ p : PropertyInfo,
      (mock_property_valuation p).status = "SUCCESS" ∧
      ∃ pv, (mock_property_valuation p).property_valuation = some pv ∧
        pv.confidence_level = "MEDIUM" ∧
        pv.confidence_score = 75 ∧
        pv.valuation_range.min_value = pv.estimated_value * (9/10) ∧
        pv.valuation_range.max_value = pv.estimated_value * (11/10) ∧
        (∀ sf : ℚ, p.square_footage = some sf → sf ≠ 0 →
          pv.estimated_value = sf * 200 * spec_type_factor (p.property_type.getD "single_family")) ∧
        ((p.square_footage = none ∨ p.square_footage = some 0) →
          pv.estimated_value = 400000 * spec_type_factor (p.property_type.getD "single_family"))) ∧
    (mock_property_valuation condo_2200).property_valuation =
      some { estimated_value := 396000, confidence_level := "MEDIUM", confidence_score := 75
             valuation_range := { min_value := 356400, max_value := 435600 } } := by
  constructor
  · intro p
    refine ⟨rfl, _, rfl, rfl, rfl, rfl, rfl, ?_, ?_⟩
    · intro sf hsf hne
      simp only [mock_property_valuation, spec_type_factor, hsf, if_pos hne]
      split_ifs <;> ring
    · intro hun
      rcases hun with hun | hun <;>
        simp only [mock_property_valuation, spec_type_factor, hun] <;>
          norm_num <;> split_ifs <;> ring
  · norm_num [mock_property_valuation, condo_2200] <;> decide

/-- Witness for C8 at the condo scenario: the known-square-footage clause
applied at 2200 square feet. -/
theorem C8_mock_estimator_witness :
    ∃ pv, (mock_property_valuation condo_2200).property_valuation = some pv ∧
      pv.estimated_value = 2200 * 200 * spec_type_factor "condo" := by
  obtain ⟨-, pv, hpv, -, -, -, -, hknown, -⟩ := C8_mock_estimator.1 condo_2200
  exact ⟨pv, hpv, hknown 2200 rfl (by norm_num)⟩

/-- C6: for a successful valuation payload with a nonzero estimated value,
`extract_loan_to_value_info` computes `ltv_ratio = loan_amount /
estimated_value` and attaches `_assess_ltv_risk`; and the LTV Risk Assessor
satisfies, for every ratio and confidence level: the three threshold
branches with their factors, the LOW-confidence upgrade that never
downgrades, `requires_pmi` iff the ratio strictly exceeds 0.80, and the
recommended action determined by the final risk level and the ratio. -/
theorem C6_ltv_risk_assessor :
    (∀ (loan_amount : ℚ) (vd : PropertyValuation), vd.estimated_value ≠ 0 →
      ∃ la, extract_loan_to_value_info
          { status := "SUCCESS", property_valuation := some vd, valuation_flags := none
            error_message := none } loan_amount = some la ∧
        la.ltv_ratio = some (loan_amount / vd.estimated_value) ∧
        la.ltv_risk_assessment = some
          (assess_ltv_risk (loan_amount / vd.estimated_value) vd.confidence_level)) ∧
    (∀ (ltv_ratio : ℚ) (confidence_level : String),
      (ltv_ratio > 95/100 →
        (assess_ltv_risk ltv_ratio confidence_level).risk_level = "HIGH" ∧
        "Very high LTV (>95%)" ∈ (assess_ltv_risk ltv_ratio confidence_level).risk_factors) ∧
      (¬ ltv_ratio > 95/100 → ltv_ratio > 80/100 →
        (assess_ltv_risk ltv_ratio confidence_level).risk_level =
          (if confidence_level = "HIGH" then "MEDIUM" else "HIGH") ∧
        "High LTV (>80%)" ∈ (assess_ltv_risk ltv_ratio confidence_level).risk_factors) ∧
      (¬ ltv_ratio > 80/100 → ltv_ratio > 70/100 → confidence_level = "LOW" →
        (assess_ltv_risk ltv_ratio confidence_level).risk_level = "MEDIUM" ∧
        "Medium LTV with low confidence valuation" ∈
          (assess_ltv_risk ltv_ratio confidence_level).risk_factors) ∧
      (¬ ltv_ratio > 80/100 → ¬ (ltv_ratio > 70/100 ∧ confidence_level = "LOW") →
        (assess_ltv_risk ltv_ratio confidence_level).risk_level =
          (if confidence_level = "LOW" then "MEDIUM" else "LOW")) ∧
      (confidence_level = "LOW" →
        "Low confidence property valuation" ∈
          (assess_ltv_risk ltv_ratio confidence_level).risk_factors) ∧
      ((assess_ltv_risk ltv_ratio confidence_level).requires_pmi = true ↔
        ltv_ratio > 80/100) ∧
      ((assess_ltv_risk ltv_ratio confidence_level).recommended_action =
        (if (assess_ltv_risk ltv_ratio confidence_level).risk_level = "HIGH" then
          (if ltv_ratio > 95/100 then "REJECT" else "REQUIRE_ADDITIONAL_REVIEW")
        else if (assess_ltv_risk ltv_ratio confidence_level).risk_level = "MEDIUM" then
          (if ltv_ratio > 80/100 then "REQUIRE_PMI" else "APPROVE_WITH_CONDITIONS")
        else "APPROVE"))) := by
  constructor
  · intro loan_amount vd hv
    refine ⟨{ ltv_available := true, error := none
              estimated_property_value := some vd.estimated_value
              loan_amount := some loan_amount
              ltv_ratio := some (loan_amount / vd.estimated_value)
              ltv_percentage := some (loan_amount / vd.estimated_value * 100)
              confidence_level := some vd.confidence_level
              confidence_score := some vd.confidence_score
              valuation_range := some vd.valuation_range
              ltv_risk_assessment := some
                (assess_ltv_risk (loan_amount / vd.estimated_value) vd.confidence_level) },
      ?_, rfl, rfl⟩
    simp [extract_loan_to_value_info, pyDiv, hv]
  · intro ltv_ratio confidence_level
    refine ⟨?_, ?_, ?_, ?_, ?_, ?_, rfl⟩
    · intro h1
      unfold assess_ltv_risk
      split_ifs <;> simp_all
    · intro h1 h2
      unfold assess_ltv_risk
      split_ifs <;> simp_all <;> linarith
    · intro h1 h2 h3
      unfold assess_ltv_risk
      split_ifs <;> simp_all <;> linarith
    · intro h1 h2
      unfold assess_ltv_risk
      split_ifs <;> simp_all <;> linarith
    · intro h1
      unfold assess_ltv_risk
      split_ifs <;> simp_all
    · unfold assess_ltv_risk
      simp

/-- Witness for C6 at a 400000 valuation and a 320000 loan. -/
theorem C6_ltv_risk_assessor_witness :
    ∃ la, extract_loan_to_value_info
        { status := "SUCCESS"
          property_valuation := some
            { estimated_value := 400000, confidence_level := "MEDIUM", confidence_score := 75
              valuation_range := { min_value := 360000, max_value := 440000 } }
          valuation_flags := none, error_message := none } 320000 = some la ∧
      la.ltv_ratio = some ((320000 : ℚ) / 400000) ∧
      la.ltv_risk_assessment = some (assess_ltv_risk ((320000 : ℚ) / 400000) "MEDIUM") :=
  C6_ltv_risk_assessor.1 320000
    { estimated_value := 400000, confidence_level := "MEDIUM", confidence_score := 75
      valuation_range := { min_value := 360000, max_value := 440000 } }
    (by norm_num)

/-- Clamp to the interval from 0 to 100, as the spec words the confidence
adjustment (section 4.7 rule 3). -/
def spec_clamp (x : ℚ) : ℚ := max 0 (min 100 x)

/-- Confidence adjustment by valuation confidence as the spec words it:
HIGH adds 5, LOW subtracts 10, anything else leaves it unchanged. -/
def spec_conf_adjust (confidence_level : String) : ℚ :=
  if confidence_level = "HIGH" then 5
  else if confidence_level = "LOW" then -10
  else 0

/-- C4: with a valuation sub-record present whose status is SUCCESS or ERROR
(as the pipeline guarantees), the Final Decision stage applies exactly the
five precedence rules in order, first match winning: non-PASS validation →
REJECTED/95 with reason "Failed data validation"; valuation ERROR →
REJECTED/90 with reason "Property valuation failed"; grade A or B with
sufficient income and LOW or MEDIUM risk → APPROVED with 85 (LOW risk) or 75
(otherwise) adjusted by valuation confidence (HIGH +5, LOW −10) and equal to
the clamped spec formula; grade D or F, insufficient income, or HIGH risk →
REJECTED/80; otherwise PENDING_REVIEW/60. -/
theorem C4_final_decision_rules (dv : ValidationResult) (ca : CreditResult)
    (iv : IncomeResult) (ra : RiskResult) (pr : PropValResult)
    (hst : pr.status = "SUCCESS" ∨ pr.status = "ERROR") :
    (dv.status ≠ "PASS" →
      mock_final_decision_core dv ca iv ra (some pr) =
        ("REJECTED", "Failed data validation", 95)) ∧
    (dv.status = "PASS" → pr.status = "ERROR" →
      mock_final_decision_core dv ca iv ra (some pr) =
        ("REJECTED", "Property valuation failed", 90)) ∧
    (dv.status = "PASS" → pr.status ≠ "ERROR" →
      (ca.credit_grade = "A" ∨ ca.credit_grade = "B") →
      iv.income_adequacy = "SUFFICIENT" →
      (ra.overall_risk = "LOW" ∨ ra.overall_risk = "MEDIUM") →
      (mock_final_decision_core dv ca iv ra (some pr)).1 = "APPROVED" ∧
      (mock_final_decision_core dv ca iv ra (some pr)).2.2 =
        spec_clamp ((if ra.overall_risk = "LOW" then 85 else 75) +
          spec_conf_adjust pr.confidence_level)) ∧
    (dv.status = "PASS" → pr.status ≠ "ERROR" →
      ¬ ((ca.credit_grade = "A" ∨ ca.credit_grade = "B") ∧
        iv.income_adequacy = "SUFFICIENT" ∧
        (ra.overall_risk = "LOW" ∨ ra.overall_risk = "MEDIUM")) →
      ((ca.credit_grade = "D" ∨ ca.credit_grade = "F") ∨
        iv.income_adequacy ≠ "SUFFICIENT" ∨ ra.overall_risk = "HIGH") →
      (mock_final_decision_core dv ca iv ra (some pr)).1 = "REJECTED" ∧
      (mock_final_decision_core dv ca iv ra (some pr)).2.2 = 80) ∧
    (dv.status = "PASS" → pr.status ≠ "ERROR" →
      ¬ ((ca.credit_grade = "A" ∨ ca.credit_grade = "B") ∧
        iv.income_adequacy = "SUFFICIENT" ∧
        (ra.overall_risk = "LOW" ∨ ra.overall_risk = "MEDIUM")) →
      ¬ ((ca.credit_grade = "D" ∨ ca.credit_grade = "F") ∨
        iv.income_adequacy ≠ "SUFFICIENT" ∨ ra.overall_risk = "HIGH") →
      (mock_final_decision_core dv ca iv ra (some pr)).1 = "PENDING_REVIEW" ∧
      (mock_final_decision_core dv ca iv ra (some pr)).2.2 = 60) := by
  refine ⟨?_, ?_, ?_, ?_, ?_⟩
  · intro h1
    unfold mock_final_decision_core
    simp only [Option.map_some']
    rw [if_pos h1]
  · intro h1 h2
    unfold mock_final_decision_core
    simp only [Option.map_some']
    rw [if_neg (not_not_intro h1),
      if_pos (⟨fun hc => absurd (h2 ▸ Option.some.inj hc) (by decide), by rw [h2]⟩ :
        ¬ some pr.status = some "SUCCESS" ∧ some pr.status = some "ERROR")]
  · intro h1 h2 h3 h4 h5
    rcases hst with hs | hs
    · unfold mock_final_decision_core
      simp only [Option.map_some']
      rw [if_neg (not_not_intro h1), if_neg (fun hc => h2 (Option.some.inj hc.2)),
        if_pos ⟨h3, h4, h5⟩, if_pos (by rw [hs])]
      refine ⟨rfl, ?_⟩
      simp only [spec_clamp, spec_conf_adjust]
      split_ifs <;> norm_num [max_def, min_def]
    · exact absurd hs h2
  · intro h1 h2 hn3 h4
    unfold mock_final_decision_core
    simp only [Option.map_some']
    rw [if_neg (not_not_intro h1), if_neg (fun hc => h2 (Option.some.inj hc.2)),
      if_neg hn3, if_pos h4]
    exact ⟨rfl, rfl⟩
  · intro h1 h2 hn3 hn4
    unfold mock_final_decision_core
    simp only [Option.map_some']
    rw [if_neg (not_not_intro h1), if_neg (fun hc => h2 (Option.some.inj hc.2)),
      if_neg hn3, if_neg hn4]
    exact ⟨rfl, rfl⟩

/-- Witness for C4: a PASS validation, grade A, sufficient income, LOW risk
and a SUCCESS valuation at HIGH confidence, where the stage approves with
confidence clamp(85 + 5) = 90. -/
theorem C4_final_decision_rules_witness :
    ((mock_final_decision_core
        { status := "PASS", issues := [], warnings := [] }
        { credit_grade := "A", risk_level := "LOW", credit_score := 780
          employment_stability := "STABLE" }
        { monthly_income := 7000, estimated_monthly_payment := 1500
          payment_to_income_ratio := 15/70, income_adequacy := "SUFFICIENT"
          employment_stability := "STABLE", concerns := [] }
        { loan_to_value_ratio := 3/4, down_payment_percent := 1/4, overall_risk := "LOW"
          risk_factors := [], requires_pmi := false }
        (some
          { status := "SUCCESS", appraised_value := 400000, confidence_level := "HIGH"
            confidence_score := some 92, valuation_range := none
            ltv_analysis := none, valuation_flags := none, error_message := none })).1 =
      "APPROVED") ∧
    ((mock_final_decision_core
        { status := "PASS", issues := [], warnings := [] }
        { credit_grade := "A", risk_level := "LOW", credit_score := 780
          employment_stability := "STABLE" }
        { monthly_income := 7000, estimated_monthly_payment := 1500
          payment_to_income_ratio := 15/70, income_adequacy := "SUFFICIENT"
          employment_stability := "STABLE", concerns := [] }
        { loan_to_value_ratio := 3/4, down_payment_percent := 1/4, overall_risk := "LOW"
          risk_factors := [], requires_pmi := false }
        (some
          { status := "SUCCESS", appraised_value := 400000, confidence_level := "HIGH"
            confidence_score := some 92, valuation_range := none
            ltv_analysis := none, valuation_flags := none, error_message := none })).2.2 =
      spec_clamp ((if ("LOW" : String) = "LOW" then 85 else 75) + spec_conf_adjust "HIGH")) :=
  (C4_final_decision_rules
    { status := "PASS", issues := [], warnings := [] }
    { credit_grade := "A", risk_level := "LOW", credit_score := 780
      employment_stability := "STABLE" }
    { monthly_income := 7000, estimated_monthly_payment := 1500
      payment_to_income_ratio := 15/70, income_adequacy := "SUFFICIENT"
      employment_stability := "STABLE", concerns := [] }
    { loan_to_value_ratio := 3/4, down_payment_percent := 1/4, overall_risk := "LOW"
      risk_factors := [], requires_pmi := false }
    { status := "SUCCESS", appraised_value := 400000, confidence_level := "HIGH"
      confidence_score := some 92, valuation_range := none
      ltv_analysis := none, valuation_flags := none, error_message := none }
    (Or.inl rfl)).2.2.1 rfl (by decide) (Or.inl rfl) rfl (Or.inl rfl)

/-- Length of an append is nonzero when the left part's length is. -/
theorem length_append_ne_zero_left (a b : String) (h : a.length ≠ 0) :
    (a ++ b).length ≠ 0 := by
  rw [String.length_append]
  omega

/-- The decision core always returns one of the three decision values and a
nonempty reason string. -/
theorem mock_final_decision_core_shape (dv : ValidationResult) (ca : CreditResult)
    (iv : IncomeResult) (ra : RiskResult) (pvr : Option PropValResult) :
    ((mock_final_decision_core dv ca iv ra pvr).1 = "APPROVED" ∨
      (mock_final_decision_core dv ca iv ra pvr).1 = "REJECTED" ∨
      (mock_final_decision_core dv ca iv ra pvr).1 = "PENDING_REVIEW") ∧
    (mock_final_decision_core dv ca iv ra pvr).2.1 ≠ "" := by
  unfold mock_final_decision_core
  dsimp only
  split_ifs
  all_goals refine ⟨by simp, ?_⟩
  all_goals
    first
      | decide
      | (apply append_ne_empty_left
         repeat apply length_append_ne_zero_left
         decide)

/-- The Income Verification stage succeeds whenever the annual income is
nonzero, fills its sub-record, and changes nothing else downstream code
reads. -/
theorem mock_income_verification_node_total (s : MortgageState)
    (h : s.annual_income ≠ 0) :
    ∃ t, mock_income_verification_node s = some t ∧
      t.annual_income = s.annual_income ∧
      t.property_value = s.property_value ∧
      t.loan_amount = s.loan_amount ∧
      t.down_payment = s.down_payment ∧
      t.credit_score = s.credit_score ∧
      t.debt_to_income_ratio = s.debt_to_income_ratio ∧
      t.data_validation_result = s.data_validation_result ∧
      t.credit_assessment_result = s.credit_assessment_result ∧
      t.income_verification_result.isSome = true ∧
      t.warnings = s.warnings ∧
      t.errors = s.errors ∧
      property_info_of t = property_info_of s := by
  have hmi : s.annual_income / 12 ≠ 0 := div_ne_zero h (by norm_num)
  unfold mock_income_verification_node
  simp only [pyDiv, if_neg hmi, Option.map_some']
  exact ⟨_, rfl, rfl, rfl, rfl, rfl, rfl, rfl, rfl, rfl, rfl, rfl, rfl, rfl⟩

/-- The Risk Analysis stage succeeds whenever the (possibly overwritten)
property value is nonzero, fills its sub-record and preserves the other
sub-records. -/
theorem mock_risk_analysis_node_total (s : MortgageState) (h : s.property_value ≠ 0) :
    ∃ t, mock_risk_analysis_node s = some t ∧
      t.data_validation_result = s.data_validation_result ∧
      t.credit_assessment_result = s.credit_assessment_result ∧
      t.income_verification_result = s.income_verification_result ∧
      t.property_valuation_result = s.property_valuation_result ∧
      t.risk_analysis_result.isSome = true := by
  unfold mock_risk_analysis_node
  simp only [pyDiv, if_neg h]
  exact ⟨_, rfl, rfl, rfl, rfl, rfl, rfl⟩

/-- The Final Decision stage succeeds whenever the four stage sub-records
are present, and then yields one of the three decisions, a nonempty reason
and the completed step marker. -/
theorem mock_final_decision_node_total (s : MortgageState)
    (h1 : s.data_validation_result.isSome = true)
    (h2 : s.credit_assessment_result.isSome = true)
    (h3 : s.income_verification_result.isSome = true)
    (h4 : s.risk_analysis_result.isSome = true) :
    ∃ r, mock_final_decision_node s = some r ∧
      (r.final_decision = "APPROVED" ∨ r.final_decision = "REJECTED" ∨
        r.final_decision = "PENDING_REVIEW") ∧
      r.decision_reason ≠ "" ∧
      r.current_step = "final_decision_completed" := by
  obtain ⟨dv, hdv⟩ := Option.isSome_iff_exists.mp h1
  obtain ⟨ca, hca⟩ := Option.isSome_iff_exists.mp h2
  obtain ⟨iv, hiv⟩ := Option.isSome_iff_exists.mp h3
  obtain ⟨ra, hra⟩ := Option.isSome_iff_exists.mp h4
  unfold mock_final_decision_node
  rw [hdv, hca, hiv, hra]
  exact ⟨_, rfl,
    (mock_final_decision_core_shape dv ca iv ra s.property_valuation_result).1,
    (mock_final_decision_core_shape dv ca iv ra s.property_valuation_result).2, rfl⟩

/-- Existential form of the valuation node's SUCCESS behavior, exposing the
fields later stages read. -/
theorem mock_property_valuation_node_success_fields (cfg : ClientConfig)
    (s : MortgageState) (pv : PropertyValuation) (flags : ValuationFlags)
    (em : Option String)
    (hresp : request_property_valuation cfg (property_info_of s) =
      { status := "SUCCESS", property_valuation := some pv, valuation_flags := some flags
        error_message := em })
    (hv : pv.estimated_value ≠ 0) (hs : s.property_value ≠ 0) :
    ∃ t, mock_property_valuation_node cfg s = some t ∧
      t.property_value = pv.estimated_value ∧
      t.data_validation_result = s.data_validation_result ∧
      t.credit_assessment_result = s.credit_assessment_result ∧
      t.income_verification_result = s.income_verification_result ∧
      t.property_valuation_result.isSome = true ∧
      t.loan_amount = s.loan_amount ∧
      t.down_payment = s.down_payment :=
  ⟨_, mock_property_valuation_node_success cfg s pv flags em hresp hv hs,
    rfl, rfl, rfl, rfl, rfl, rfl, rfl⟩

/-- Existential form of the valuation node's ERROR behavior, exposing the
fields later stages read. -/
theorem mock_property_valuation_node_error_fields (cfg : ClientConfig)
    (s : MortgageState)
    (hs : (request_property_valuation cfg (property_info_of s)).status ≠ "SUCCESS") :
    ∃ t, mock_property_valuation_node cfg s = some t ∧
      t.property_value = s.property_value ∧
      t.data_validation_result = s.data_validation_result ∧
      t.credit_assessment_result = s.credit_assessment_result ∧
      t.income_verification_result = s.income_verification_result ∧
      t.property_valuation_result.isSome = true :=
  ⟨_, mock_property_valuation_node_error cfg s hs, rfl, rfl, rfl, rfl, rfl⟩

/-- C2 (counterexample): at an application with a zero annual income the
sequential mock pipeline raises a `ZeroDivisionError` inside the Income
Verification stage — the whole run evaluates to `none` (an exception
escaping the pipeline boundary), not to a result record; the stage neither
guards `annual_income > 0` nor reports the failure. -/
theorem C2_pipeline_raises_on_zero_income :
    run_mock_mortgage_workflow cfg_mock_mode app_zero_income = none := by
  norm_num [run_mock_mortgage_workflow, mock_data_validation_node,
    mock_credit_assessment_node, mock_income_verification_node, pyDiv,
    app_zero_income, initial_state]

/-- C2 (amended): the sequential mock pipeline terminates with a complete,
well-typed result — a decision among the three enum values, a nonempty
reason and the final step marker — for every application whose annual income
and stated property value are nonzero, provided any SUCCESS response of the
valuation client carries its payload and flags with a nonzero estimated
value (the mock estimator always does); with a zero annual income the
division in Income Verification raises instead. -/
theorem C2_pipeline_totality_amended (cfg : ClientConfig) (s : MortgageState)
    (hai : s.annual_income ≠ 0) (hpv : s.property_value ≠ 0)
    (hresp : (request_property_valuation cfg (property_info_of s)).status ≠ "SUCCESS" ∨
      ∃ pv flags,
        (request_property_valuation cfg (property_info_of s)).property_valuation = some pv ∧
        (request_property_valuation cfg (property_info_of s)).valuation_flags = some flags ∧
        pv.estimated_value ≠ 0) :
    ∃ r, run_mock_mortgage_workflow cfg s = some r ∧
      (r.final_decision = "APPROVED" ∨ r.final_decision = "REJECTED" ∨
        r.final_decision = "PENDING_REVIEW") ∧
      r.decision_reason ≠ "" ∧
      r.current_step = "final_decision_completed" := by
  unfold run_mock_mortgage_workflow
  obtain ⟨s3, h3, h3ai, h3pv, h3la, h3dp, h3cs, h3dti, h3dv, h3ca, h3iv, h3w, h3e, h3info⟩ :=
    mock_income_verification_node_total
      (mock_credit_assessment_node (mock_data_validation_node s)) hai
  rw [h3, Option.some_bind]
  have h3info' : property_info_of s3 = property_info_of s := h3info
  by_cases hst : (request_property_valuation cfg (property_info_of s)).status = "SUCCESS"
  · rcases hresp with hfail | ⟨pv, flags, hpvp, hfl, hvne⟩
    · exact absurd hst hfail
    · have hre : request_property_valuation cfg (property_info_of s3) =
          { status := "SUCCESS", property_valuation := some pv, valuation_flags := some flags
            error_message := (request_property_valuation cfg (property_info_of s)).error_message } := by
        rw [h3info', ← hst, ← hpvp, ← hfl]
      obtain ⟨s4, h4, h4pv, h4dv, h4ca, h4iv, h4pvr, h4la, h4dp⟩ :=
        mock_property_valuation_node_success_fields cfg s3 pv flags _ hre hvne
          (by rw [h3pv]; exact hpv)
      rw [h4, Option.some_bind]
      obtain ⟨s5, h5, h5dv, h5ca, h5iv, h5pvr, h5ra⟩ :=
        mock_risk_analysis_node_total s4 (by rw [h4pv]; exact hvne)
      rw [h5, Option.some_bind]
      obtain ⟨r, hr, hrdec, hrreason, hrstep⟩ := mock_final_decision_node_total s5
        (by rw [h5dv, h4dv, h3dv]; rfl)
        (by rw [h5ca, h4ca, h3ca]; rfl)
        (by rw [h5iv, h4iv]; exact h3iv)
        h5ra
      exact ⟨r, hr, hrdec, hrreason, hrstep⟩
  · obtain ⟨s4, h4, h4pv, h4dv, h4ca, h4iv, h4pvr⟩ :=
      mock_property_valuation_node_error_fields cfg s3 (by rw [h3info']; exact hst)
    rw [h4, Option.some_bind]
    obtain ⟨s5, h5, h5dv, h5ca, h5iv, h5pvr, h5ra⟩ :=
      mock_risk_analysis_node_total s4 (by rw [h4pv, h3pv]; exact hpv)
    rw [h5, Option.some_bind]
    obtain ⟨r, hr, hrdec, hrreason, hrstep⟩ := mock_final_decision_node_total s5
      (by rw [h5dv, h4dv, h3dv]; rfl)
      (by rw [h5ca, h4ca, h3ca]; rfl)
      (by rw [h5iv, h4iv]; exact h3iv)
      h5ra
    exact ⟨r, hr, hrdec, hrreason, hrstep⟩

/-- Witness for C2 (amended) at the mock-mode client and the strong
application, whose annual income 95000 and property value 400000 are
nonzero and whose mock valuation succeeds with payload, flags and a nonzero
estimate. -/
theorem C2_pipeline_totality_amended_witness :
    ∃ r, run_mock_mortgage_workflow cfg_mock_mode app_strong = some r ∧
      (r.final_decision = "APPROVED" ∨ r.final_decision = "REJECTED" ∨
        r.final_decision = "PENDING_REVIEW") ∧
      r.decision_reason ≠ "" ∧
      r.current_step = "final_decision_completed" :=
  C2_pipeline_totality_amended cfg_mock_mode app_strong
    (by norm_num [app_strong, initial_state])
    (by norm_num [app_strong, initial_state])
    (Or.inr ⟨{ estimated_value := 400000, confidence_level := "MEDIUM", confidence_score := 75
               valuation_range := { min_value := 360000, max_value := 440000 } },
      { high_confidence := false, market_stable := true, comparable_data_sufficient := true },
      by norm_num [request_property_valuation, cfg_mock_mode, mock_property_valuation,
        property_info_of, app_strong, initial_state] <;> decide,
      by norm_num [request_property_valuation, cfg_mock_mode, mock_property_valuation,
        property_info_of, app_strong, initial_state],
      by norm_num⟩)

/-- C10: in the conditional workflow, starting from a record whose skipped
sub-records are still the empty mappings of the entry point, a FAIL from
Data Validation routes straight to the decision node, and a grade F routes
there from Credit Assessment; in both cases the decision node's unconditional
lookups of the skipped stages' sub-records fail (`KeyError`, modelled as
`none`), so the whole run raises instead of returning the specified REJECTED
decision. -/
theorem C10_shortcircuit_keyerror (cfg : ClientConfig) (s : MortgageState)
    (hca : s.credit_assessment_result = none)
    (hiv : s.income_verification_result = none)
    (hra : s.risk_analysis_result = none) :
    ((mock_data_validation_node s).data_validation_result.map (fun r => r.status) =
        some "FAIL" →
      should_continue_after_validation (mock_data_validation_node s) = some "decision" ∧
      run_mock_conditional_mortgage_workflow cfg s = none) ∧
    ((mock_data_validation_node s).data_validation_result.map (fun r => r.status) =
        some "PASS" →
      (mock_credit_assessment_node (mock_data_validation_node s)).credit_assessment_result.map
        (fun r => r.credit_grade) = some "F" →
      should_continue_after_credit (mock_credit_assessment_node (mock_data_validation_node s)) =
        some "decision" ∧
      run_mock_conditional_mortgage_workflow cfg s = none) := by
  constructor
  · intro hfail
    simp only [mock_data_validation_node, Option.map_some'] at hfail
    have hst := Option.some.inj hfail
    have hr1 : should_continue_after_validation (mock_data_validation_node s) =
        some "decision" := by
      simp only [should_continue_after_validation, mock_data_validation_node,
        Option.map_some']
      rw [hst, if_pos rfl]
    refine ⟨hr1, ?_⟩
    unfold run_mock_conditional_mortgage_workflow
    dsimp only
    rw [hr1, Option.some_bind, if_pos rfl]
    unfold mock_final_decision_node
    rw [show (mock_data_validation_node s).credit_assessment_result = none from hca]
    rfl
  · intro hpass hgradeF
    simp only [mock_data_validation_node, Option.map_some'] at hpass
    have hst := Option.some.inj hpass
    simp only [mock_credit_assessment_node, mock_data_validation_node,
      Option.map_some'] at hgradeF
    have hgr := Option.some.inj hgradeF
    have hr1 : should_continue_after_validation (mock_data_validation_node s) =
        some "credit_assessment" := by
      simp only [should_continue_after_validation, mock_data_validation_node,
        Option.map_some']
      rw [hst, if_neg (by decide)]
    have hr2 : should_continue_after_credit
        (mock_credit_assessment_node (mock_data_validation_node s)) = some "decision" := by
      simp only [should_continue_after_credit, mock_credit_assessment_node,
        mock_data_validation_node, Option.map_some']
      rw [hgr, if_pos rfl]
    refine ⟨hr2, ?_⟩
    unfold run_mock_conditional_mortgage_workflow
    dsimp only
    rw [hr1, Option.some_bind, if_neg (by decide : ¬("credit_assessment" : String) = "decision"),
      hr2, Option.some_bind, if_pos rfl]
    unfold mock_final_decision_node
    rw [show (mock_credit_assessment_node
        (mock_data_validation_node s)).income_verification_result = none from hiv]
    rfl

/-- Witness for C10: the conditional workflow raises (`none`) both on a
failing-validation application (down payment exceeding the property value)
and on a grade-F application (credit score 500). -/
theorem C10_shortcircuit_keyerror_witness :
    run_mock_conditional_mortgage_workflow cfg_mock_mode app_downpayment_exceeds = none ∧
    run_mock_conditional_mortgage_workflow cfg_mock_mode app_bad_credit = none := by
  constructor
  · exact ((C10_shortcircuit_keyerror cfg_mock_mode app_downpayment_exceeds rfl rfl rfl).1
      (by norm_num [mock_data_validation_node, app_downpayment_exceeds, initial_state])).2
  · exact ((C10_shortcircuit_keyerror cfg_mock_mode app_bad_credit rfl rfl rfl).2
      (by norm_num [mock_data_validation_node, app_bad_credit, initial_state])
      (by norm_num [mock_credit_assessment_node, mock_data_validation_node, app_bad_credit,
        initial_state])).2

end LangMortgage
